import Mathlib

/-!
Verification of `sunpy/physics/differential_rotation.py`.

The Python source is shallowly embedded over the real numbers: numpy floating
point arithmetic is modelled by exact real arithmetic, numpy arrays by lists of
reals (numpy ufuncs act element-wise, which is `List.map` here), Python
exceptions by `Except String`, and external collaborators (time parsing, the
WCS projection service, the image container) by explicit function parameters.
-/

namespace DiffRot

/-- `np.deg2rad` : degrees to radians. -/
noncomputable def deg2rad (x : ℝ) : ℝ := x * Real.pi / 180

/-- `np.rad2deg` : radians to degrees. -/
noncomputable def rad2deg (x : ℝ) : ℝ := x * 180 / Real.pi

/-- `np.mod x y` for `y > 0`: the representative of `x` in `[0, y)`
(numpy's mod takes the sign of the divisor). -/
noncomputable def fmod (x y : ℝ) : ℝ := x - y * (⌊x / y⌋ : ℝ)

/-- `np.round x 4` : round to 4 decimal places.  (Tie-breaking behaviour is
irrelevant to every statement below, since both sides of each comparison go
through this same function.) -/
noncomputable def round4 (x : ℝ) : ℝ := ((round (x * 10000) : ℤ) : ℝ) / 10000

/-- `np.arctan2 y x`, modelled by the complex argument, with range `(-π, π]`. -/
noncomputable def arctan2 (y x : ℝ) : ℝ := Complex.arg ⟨x, y⟩

/-- The numeric body of `diff_rot` (source lines 68-97) for one scalar
latitude: unit conversion, the model formulas, the synodic correction and the
final rounding.  numpy broadcasts exactly this computation element-wise over
an array-valued latitude. -/
noncomputable def diff_rot_core (duration latitude : ℝ)
    (rot_type frame_time : String) : ℝ :=
  let delta_seconds := duration
  let delta_days := delta_seconds / 24.0 / 3600.0
  let sin2l := (Real.sin (deg2rad latitude)) ^ 2
  let sin4l := sin2l ^ 2
  let rotation_deg :=
    if rot_type = "allen" then
      delta_days * (14.44 - 3.0 * sin2l)
    else
      let A := if rot_type = "howard" then 2.894 else 2.851
      let B := if rot_type = "howard" then -0.428 else -0.343
      let C := if rot_type = "howard" then -0.370 else -0.474
      let rotation_rate := A + B * sin2l + C * sin4l
      rotation_rate * 1e-6 * delta_seconds / deg2rad 1
  let rotation_deg :=
    if frame_time = "synodic" then rotation_deg - 0.9856 * delta_days
    else rotation_deg
  round4 rotation_deg

/-- `diff_rot(duration, latitude, rot_type, frame_time)` for a scalar
latitude.  A `ValueError` (source lines 79-81) becomes `Except.error`. -/
noncomputable def diff_rot (duration latitude : ℝ)
    (rot_type frame_time : String) : Except String ℝ :=
  if rot_type ∈ ["howard", "allen", "snodgrass"] then
    .ok (diff_rot_core duration latitude rot_type frame_time)
  else
    .error "rot_type must equal one of howard | allen | snodgrass"

/-- `diff_rot` for an array-valued latitude: the model-name check does not
depend on the data, and the numeric body broadcasts element-wise. -/
noncomputable def diff_rot_arr (duration : ℝ) (latitude : List ℝ)
    (rot_type frame_time : String) : Except String (List ℝ) :=
  if rot_type ∈ ["howard", "allen", "snodgrass"] then
    .ok (latitude.map fun lat => diff_rot_core duration lat rot_type frame_time)
  else
    .error "rot_type must equal one of howard | allen | snodgrass"

/-- Transcription of the specification's description of the rotation-shift
computation (spec section 4.1 and claim C1), to be compared with `diff_rot`:
rate formulas with the fixed coefficient triples, shift in degrees, the
synodic correction subtracted before rounding, rounded to 4 decimals. -/
noncomputable def rotation_shift_spec (duration latitude : ℝ)
    (model day_type : String) : ℝ :=
  let duration_days := duration / 86400.0
  let syn := if day_type = "synodic" then 0.9856 * duration_days else 0
  if model = "allen" then
    round4 (duration_days * (14.44 - 3.0 * (Real.sin (deg2rad latitude)) ^ 2) - syn)
  else
    let abc : ℝ × ℝ × ℝ :=
      if model = "howard" then (2.894, -0.428, -0.370) else (2.851, -0.343, -0.474)
    round4 ((abc.1 + abc.2.1 * (Real.sin (deg2rad latitude)) ^ 2 +
      abc.2.2 * (Real.sin (deg2rad latitude)) ^ 4) * 1e-6 * duration / deg2rad 1 - syn)

/-- `True` exactly on the `Except.ok` constructor: "the call did not raise". -/
def isOk {α : Type} : Except String α → Bool
  | .ok _ => true
  | .error _ => false

lemma core_howard (dur lat : ℝ) (ft : String) :
    diff_rot_core dur lat "howard" ft = rotation_shift_spec dur lat "howard" ft := by
  unfold diff_rot_core rotation_shift_spec
  simp only [String.reduceEq, if_false, if_true, reduceIte]
  split_ifs with h
  · exact congrArg round4 (by ring)
  · exact congrArg round4 (by ring)

lemma core_snodgrass (dur lat : ℝ) (ft : String) :
    diff_rot_core dur lat "snodgrass" ft = rotation_shift_spec dur lat "snodgrass" ft := by
  unfold diff_rot_core rotation_shift_spec
  simp only [String.reduceEq, if_false, if_true, reduceIte]
  split_ifs with h
  · exact congrArg round4 (by ring)
  · exact congrArg round4 (by ring)

lemma core_allen (dur lat : ℝ) (ft : String) :
    diff_rot_core dur lat "allen" ft = rotation_shift_spec dur lat "allen" ft := by
  unfold diff_rot_core rotation_shift_spec
  simp only [String.reduceEq, if_false, if_true, reduceIte]
  split_ifs with h
  · exact congrArg round4 (by ring)
  · exact congrArg round4 (by ring)

/-- C1: for every duration (seconds) and latitude (scalar or list, degrees),
`diff_rot` under each of the three recognized models returns exactly the
specification's formula: for "howard"/"snodgrass" the 4-decimal rounding of
(A + B sin²lat + C sin⁴lat)·1e-6·duration_seconds/deg2rad(1) with coefficient
triples (2.894, -0.428, -0.370) and (2.851, -0.343, -0.474); for "allen" the
4-decimal rounding of duration_days·(14.44 - 3 sin²lat); with
0.9856·duration_days subtracted before rounding when `day_type` is
"synodic", regardless of model. -/
theorem diff_rot_matches_spec (dur lat : ℝ) (lats : List ℝ) (model ft : String)
    (h : model = "howard" ∨ model = "snodgrass" ∨ model = "allen") :
    diff_rot dur lat model ft = .ok (rotation_shift_spec dur lat model ft) ∧
    diff_rot_arr dur lats model ft =
      .ok (lats.map fun l2 => rotation_shift_spec dur l2 model ft) := by
  rcases h with h | h | h <;> subst h <;>
    exact ⟨by simp [diff_rot, core_howard, core_snodgrass, core_allen],
      by simp [diff_rot_arr, core_howard, core_snodgrass, core_allen]⟩

/-- Witness for C1 at duration one day, latitude 30°, model "allen",
synodic day type. -/
theorem diff_rot_matches_spec_witness :
    diff_rot 86400 30 "allen" "synodic" =
      .ok (rotation_shift_spec 86400 30 "allen" "synodic") ∧
    diff_rot_arr 86400 [30] "allen" "synodic" =
      .ok ([30].map fun l2 => rotation_shift_spec 86400 l2 "allen" "synodic") :=
  diff_rot_matches_spec 86400 30 [30] "allen" "synodic" (Or.inr (Or.inr rfl))

lemma mem_models_iff (rt : String) :
    rt ∈ ["howard", "allen", "snodgrass"] ↔
      (rt = "howard" ∨ rt = "snodgrass" ∨ rt = "allen") := by
  simp only [List.mem_cons, List.mem_singleton, List.not_mem_nil, or_false]
  tauto

/-- C2: `diff_rot` (scalar and array forms) produces a result exactly when the
model name is one of "howard", "snodgrass", "allen"; any other name yields
an error and no result. -/
theorem diff_rot_ok_iff_model_recognized (dur lat : ℝ) (lats : List ℝ)
    (rt ft : String) :
    (isOk (diff_rot dur lat rt ft) = true ↔
      (rt = "howard" ∨ rt = "snodgrass" ∨ rt = "allen")) ∧
    (isOk (diff_rot_arr dur lats rt ft) = true ↔
      (rt = "howard" ∨ rt = "snodgrass" ∨ rt = "allen")) := by
  constructor <;> [unfold diff_rot; unfold diff_rot_arr] <;> split_ifs with hm
  · exact iff_of_true rfl ((mem_models_iff rt).mp hm)
  · exact iff_of_false (by simp [isOk]) (fun hd => hm ((mem_models_iff rt).mpr hd))
  · exact iff_of_true rfl ((mem_models_iff rt).mp hm)
  · exact iff_of_false (by simp [isOk]) (fun hd => hm ((mem_models_iff rt).mpr hd))

lemma round4_zero : round4 0 = 0 := by norm_num [round4]

lemma core_zero_duration (lat : ℝ) (rt ft : String) :
    diff_rot_core 0 lat rt ft = 0 := by
  unfold diff_rot_core
  split_ifs <;> · rw [show round4 _ = round4 0 from congrArg round4 (by ring)]
                  exact round4_zero

/-- C3: for every latitude (scalar or list), every recognized model and every
day type, a zero-second duration gives exactly a zero-degree shift. -/
theorem diff_rot_zero_duration (lat : ℝ) (lats : List ℝ) (rt ft : String)
    (h : rt = "howard" ∨ rt = "snodgrass" ∨ rt = "allen") :
    diff_rot 0 lat rt ft = .ok 0 ∧
    diff_rot_arr 0 lats rt ft = .ok (lats.map fun _ => 0) := by
  have hm : rt ∈ ["howard", "allen", "snodgrass"] := (mem_models_iff rt).mpr h
  constructor
  · unfold diff_rot
    rw [if_pos hm, core_zero_duration]
  · unfold diff_rot_arr
    rw [if_pos hm]
    exact congrArg Except.ok (List.map_congr_left fun a _ => core_zero_duration a rt ft)

/-- Witness for C3 at latitude 30°, latitudes [30°, -45°], model "howard",
synodic day type. -/
theorem diff_rot_zero_duration_witness :
    diff_rot 0 30 "howard" "synodic" = .ok 0 ∧
    diff_rot_arr 0 [30, -45] "howard" "synodic" =
      .ok ([30, -45].map fun _ => (0 : ℝ)) :=
  diff_rot_zero_duration 30 [30, -45] "howard" "synodic" (Or.inl rfl)

lemma sin_deg2rad_30 : Real.sin (deg2rad 30) = 1 / 2 := by
  rw [show deg2rad 30 = Real.pi / 6 by unfold deg2rad; ring]
  exact Real.sin_pi_div_six

lemma core_allen_one_day_30 :
    diff_rot_core 86400 30 "allen" "sidereal" = 13.69 := by
  unfold diff_rot_core
  simp only [String.reduceEq, if_false, if_true, reduceIte, sin_deg2rad_30]
  norm_num [round4, round_eq]

lemma core_allen_one_day_neg_30 :
    diff_rot_core 86400 (-30) "allen" "sidereal" = 13.69 := by
  unfold diff_rot_core
  rw [show deg2rad (-30) = -(deg2rad 30) by unfold deg2rad; ring, Real.sin_neg,
    sin_deg2rad_30]
  simp only [String.reduceEq, if_false, if_true, reduceIte]
  norm_num [round4, round_eq]

/-- C4 counterexample: at duration one day, latitude 30°, model "allen",
sidereal day type, the shift at -30° equals +13.69° rather than the negation
-13.69° of the shift at +30°, so `diff_rot` is not odd in latitude. -/
theorem diff_rot_not_odd_in_latitude :
    ¬ (diff_rot 86400 (-30) "allen" "sidereal" =
        (diff_rot 86400 30 "allen" "sidereal").map fun r => -r) := by
  intro hcontra
  rw [show diff_rot 86400 (-30) "allen" "sidereal" = .ok 13.69 by
        unfold diff_rot; rw [if_pos (by decide), core_allen_one_day_neg_30],
      show diff_rot 86400 30 "allen" "sidereal" = .ok 13.69 by
        unfold diff_rot; rw [if_pos (by decide), core_allen_one_day_30]] at hcontra
  have : (13.69 : ℝ) = -13.69 := by
    simpa [Except.map] using hcontra
  norm_num at this

/-- C4 amended: `diff_rot` is even in latitude for every model and day type:
the shift computed at -latitude equals the shift computed at +latitude
exactly (the formulas depend on latitude only through sin² and sin⁴). -/
theorem diff_rot_even_in_latitude (dur lat : ℝ) (rt ft : String) :
    diff_rot dur (-lat) rt ft = diff_rot dur lat rt ft := by
  have h : Real.sin (deg2rad (-lat)) ^ 2 = Real.sin (deg2rad lat) ^ 2 := by
    rw [show deg2rad (-lat) = -(deg2rad lat) by unfold deg2rad; ring, Real.sin_neg]
    ring
  unfold diff_rot diff_rot_core
  rw [h]

lemma core_not_synodic (dur lat : ℝ) (rt ft : String) (h : ft ≠ "synodic") :
    diff_rot_core dur lat rt ft = diff_rot_core dur lat rt "sidereal" := by
  unfold diff_rot_core
  simp only [h, String.reduceEq, reduceIte, if_false]

/-- C10: `diff_rot` never validates `frame_time`: every value other than the
exact string "synodic" (including strings outside the documented set) gives
the same result as "sidereal", and for recognized models no error is
raised. -/
theorem diff_rot_ignores_day_type (dur lat : ℝ) (lats : List ℝ) (rt ft : String)
    (h : ft ≠ "synodic") :
    diff_rot dur lat rt ft = diff_rot dur lat rt "sidereal" ∧
    diff_rot_arr dur lats rt ft = diff_rot_arr dur lats rt "sidereal" ∧
    ((rt = "howard" ∨ rt = "snodgrass" ∨ rt = "allen") →
      isOk (diff_rot dur lat rt ft) = true) := by
  refine ⟨?_, ?_, ?_⟩
  · unfold diff_rot
    rw [core_not_synodic dur lat rt ft h]
  · unfold diff_rot_arr
    split_ifs with hm
    · exact congrArg Except.ok
        (List.map_congr_left fun a _ => core_not_synodic dur a rt ft h)
    · rfl
  · intro hd
    unfold diff_rot
    rw [if_pos ((mem_models_iff rt).mpr hd)]
    rfl

/-- Witness for C10 at duration one day, latitude 30°, model "howard" and the
unrecognized day type "tuesday". -/
theorem diff_rot_ignores_day_type_witness :
    diff_rot 86400 30 "howard" "tuesday" = diff_rot 86400 30 "howard" "sidereal" ∧
    diff_rot_arr 86400 [30] "howard" "tuesday" =
      diff_rot_arr 86400 [30] "howard" "sidereal" ∧
    ((("howard" : String) = "howard" ∨ ("howard" : String) = "snodgrass" ∨
        ("howard" : String) = "allen") →
      isOk (diff_rot 86400 30 "howard" "tuesday") = true) :=
  diff_rot_ignores_day_type 86400 30 [30] "howard" "tuesday" (by decide)

/-- `arr.min()` of a numpy array modelled as a list (meaningful for nonempty
arrays, as in the source's uses). -/
noncomputable def listMin : List ℝ → ℝ
  | [] => 0
  | x :: xs => xs.foldl min x

/-- `arr.max()` of a numpy array modelled as a list. -/
noncomputable def listMax : List ℝ → ℝ
  | [] => 0
  | x :: xs => xs.foldl max x

/-- `_to_norm` (source lines 411-439): shift by `abs(arr.min())` when the
minimum is negative, then divide by the maximum of the (shifted) array.
`img_as_float` on a float64 array is the identity. -/
noncomputable def to_norm (arr : List ℝ) : List ℝ :=
  let arr1 := if listMin arr < 0 then arr.map (fun v => v + |listMin arr|) else arr
  arr1.map (fun v => v / listMax arr1)

/-- `_un_norm` (source lines 442-473): multiply by `original.max() + level`
and subtract `level`, where `level` is `abs(original.min())` unless the
original minimum is positive. -/
noncomputable def un_norm (arr original : List ℝ) : List ℝ :=
  let level := if listMin original > 0 then (0 : ℝ) else |listMin original|
  (arr.map (fun v => v * (listMax original + level))).map (fun v => v - level)

/-- The maximum of the array `_to_norm` divides by: the maximum after the
conditional shift. -/
noncomputable def shiftedMax (arr : List ℝ) : ℝ :=
  if listMin arr < 0 then listMax (arr.map (fun v => v + |listMin arr|))
  else listMax arr

lemma foldl_max_map_add (c : ℝ) (xs : List ℝ) : ∀ acc : ℝ,
    (xs.map (fun v => v + c)).foldl max (acc + c) = xs.foldl max acc + c := by
  induction xs with
  | nil => intro acc; rfl
  | cons y ys ih =>
    intro acc
    simp only [List.map_cons, List.foldl_cons]
    rw [max_add_add_right, ih]

lemma listMax_map_add (c : ℝ) (l : List ℝ) (h : l ≠ []) :
    listMax (l.map (fun v => v + c)) = listMax l + c := by
  match l with
  | [] => exact absurd rfl h
  | x :: xs =>
    simp only [List.map_cons, listMax]
    exact foldl_max_map_add c xs x

/-- C8: for every nonempty array whose shifted maximum is non-zero,
un-normalization applied to the normalization of the array, with the
original array supplied for the min/max, reconstructs the original array
element-wise (exactly, in the real-number model of the float arithmetic). -/
theorem to_norm_un_norm_roundtrip (a : List ℝ) (h1 : a ≠ [])
    (h2 : shiftedMax a ≠ 0) : un_norm (to_norm a) a = a := by
  unfold shiftedMax at h2
  unfold to_norm un_norm
  dsimp only []
  by_cases hm : listMin a < 0
  · rw [if_pos hm] at h2 ⊢
    rw [listMax_map_add _ a h1] at h2 ⊢
    have hlev : ¬ listMin a > 0 := by linarith
    rw [if_neg hlev]
    simp only [List.map_map]
    refine (List.map_congr_left fun v _ => ?_).trans (List.map_id a)
    simp only [Function.comp_apply, id_eq]
    field_simp
  · rw [if_neg hm] at h2 ⊢
    have hlev : (if listMin a > 0 then (0 : ℝ) else |listMin a|) = 0 := by
      split_ifs with h3
      · rfl
      · have h0 : listMin a = 0 := le_antisymm (not_lt.mp h3) (not_lt.mp hm)
        rw [h0, abs_zero]
    rw [hlev]
    simp only [List.map_map]
    refine (List.map_congr_left fun v _ => ?_).trans (List.map_id a)
    simp only [Function.comp_apply, id_eq]
    rw [add_zero, sub_zero, div_mul_cancel₀ v h2]

/-- Witness for C8 at the one-element array [2]. -/
theorem to_norm_un_norm_roundtrip_witness :
    un_norm (to_norm [2]) [2] = [2] :=
  to_norm_un_norm_roundtrip [2] (by simp)
    (by
      unfold shiftedMax
      rw [show listMin [2] = (2 : ℝ) from rfl, if_neg (by norm_num)]
      rw [show listMax [2] = (2 : ℝ) from rfl]
      norm_num)

/-- The dictionary returned by `_sun_pos` (degrees throughout). -/
structure SunPos where
  longitude : ℝ
  ra : ℝ
  dec : ℝ
  app_long : ℝ
  obliq : ℝ

/-- Source lines 393-396: add 360° to a negative right ascension.  For array
input the same correction is applied element-wise (`ra[ra < 0] += 360`). -/
noncomputable def normalizeRa (ra : ℝ) : ℝ :=
  if ra < 0 then ra + 360 else ra

/-- `_sun_pos` (source lines 288-408) as a function of the Julian day number
of the input date (`julian_day` is the external time service).  Every literal
coefficient is copied from the source. -/
noncomputable def sun_pos (jd : ℝ) : SunPos :=
  let dd := jd - 2415020.0
  let t := dd / 36525.0
  let l := (279.6966780 + fmod (36000.7689250 * t) 360.00) * 3600.0
  let me_deg := 358.4758440 + fmod (35999.049750 * t) 360.0
  let ellcor := (6910.10 - 17.20 * t) * Real.sin (deg2rad me_deg) +
    72.30 * Real.sin (deg2rad (2.0 * me_deg))
  let l := l + ellcor
  let mv := 212.603219 + fmod (58517.8038750 * t) 360.0
  let vencorr := 4.80 * Real.cos (deg2rad (299.10170 + mv - me_deg)) +
    5.50 * Real.cos (deg2rad (148.31330 + 2.0 * mv - 2.0 * me_deg)) +
    2.50 * Real.cos (deg2rad (315.94330 + 2.0 * mv - 3.0 * me_deg)) +
    1.60 * Real.cos (deg2rad (345.25330 + 3.0 * mv - 4.0 * me_deg)) +
    1.00 * Real.cos (deg2rad (318.150 + 3.0 * mv - 5.0 * me_deg))
  let l := l + vencorr
  let mm := 319.5294250 + fmod (19139.858500 * t) 360.0
  let marscorr := 2.0 * Real.cos (deg2rad (343.88830 - 2.0 * mm + 2.0 * me_deg)) +
    1.80 * Real.cos (deg2rad (200.40170 - 2.0 * mm + me_deg))
  let l := l + marscorr
  let mj := 225.3283280 + fmod (3034.69202390 * t) 360.00
  let jupcorr := 7.20 * Real.cos (deg2rad (179.53170 - mj + me_deg)) +
    2.60 * Real.cos (deg2rad (263.21670 - mj)) +
    2.70 * Real.cos (deg2rad (87.14500 - 2.0 * mj + 2.0 * me_deg)) +
    1.60 * Real.cos (deg2rad (109.49330 - 2.0 * mj + me_deg))
  let l := l + jupcorr
  let d := 350.73768140 + fmod (445267.114220 * t) 360.0
  let mooncorr := 6.50 * Real.sin (deg2rad d)
  let l := l + mooncorr
  let longterm := 6.40 * Real.sin (deg2rad (231.190 + 20.20 * t))
  let l := l + longterm
  let l := fmod (l + 2592000.0) 1296000.0
  let longmed := l / 3600.0
  let l := l - 20.5
  let omega := 259.1832750 - fmod (1934.1420080 * t) 360.0
  let l := l - 17.20 * Real.sin (deg2rad omega)
  let oblt := 23.4522940 - 0.01301250 * t +
    (9.20 * Real.cos (deg2rad omega)) / 3600.0
  let l := l / 3600.0
  let ra := rad2deg (arctan2 (Real.sin (deg2rad l) * Real.cos (deg2rad oblt))
    (Real.cos (deg2rad l)))
  let ra := normalizeRa ra
  let dec := rad2deg (Real.arcsin (Real.sin (deg2rad l) * Real.sin (deg2rad oblt)))
  ⟨longmed, ra, dec, l, oblt⟩

/-- `_sun_pos` over an array of dates: every step of the source is a numpy
ufunc or an element-wise masked update, so the array computation is the
element-wise scalar computation. -/
noncomputable def sun_pos_arr (jds : List ℝ) : List SunPos := jds.map sun_pos

lemma rad2deg_arctan2_bounds (y x : ℝ) :
    -180 < rad2deg (arctan2 y x) ∧ rad2deg (arctan2 y x) ≤ 180 := by
  have hpi : (0 : ℝ) < Real.pi := Real.pi_pos
  have h1 : Complex.arg ⟨x, y⟩ ≤ Real.pi := Complex.arg_le_pi _
  have h2 : -Real.pi < Complex.arg ⟨x, y⟩ := Complex.neg_pi_lt_arg _
  unfold rad2deg arctan2
  constructor
  · rw [lt_div_iff₀ hpi]
    nlinarith
  · rw [div_le_iff₀ hpi]
    nlinarith

lemma normalizeRa_bounds (ra : ℝ) (hlo : -180 < ra) (hhi : ra ≤ 180) :
    0 ≤ normalizeRa ra ∧ normalizeRa ra < 360 := by
  unfold normalizeRa
  split_ifs with h
  · constructor <;> linarith
  · constructor <;> [exact not_lt.mp h; linarith]

/-- C5: the right ascension returned by `_sun_pos` always lies in
[0°, 360°), for a scalar date and element-wise for an array of dates,
including instants where the raw atan2-derived value is negative. -/
theorem sun_pos_ra_in_range (jd : ℝ) (jds : List ℝ) :
    (0 ≤ (sun_pos jd).ra ∧ (sun_pos jd).ra < 360) ∧
    (∀ p ∈ sun_pos_arr jds, 0 ≤ p.ra ∧ p.ra < 360) := by
  have key : ∀ j : ℝ, 0 ≤ (sun_pos j).ra ∧ (sun_pos j).ra < 360 := by
    intro j
    unfold sun_pos
    dsimp only []
    exact normalizeRa_bounds _ (rad2deg_arctan2_bounds _ _).1
      (rad2deg_arctan2_bounds _ _).2
  refine ⟨key jd, fun p hp => ?_⟩
  obtain ⟨j, _, rfl⟩ := List.mem_map.mp hp
  exact key j

/-- Witness for C5 at the epoch Julian day 2415020 and the one-element date
array [2451545]. -/
theorem sun_pos_ra_in_range_witness :
    0 ≤ (sun_pos 2415020).ra ∧ (sun_pos 2415020).ra < 360 ∧
    0 ≤ (sun_pos 2451545).ra ∧ (sun_pos 2451545).ra < 360 := by
  obtain ⟨h1, h2⟩ := sun_pos_ra_in_range 2415020 [2451545]
  have h3 := h2 (sun_pos 2451545) (by simp [sun_pos_arr])
  exact ⟨h1.1, h1.2, h3.1, h3.2⟩

/-- A numpy array of coordinates: its shape and its flattened data. -/
structure Arr where
  shape : List Nat
  data : List ℝ

/-- The b0/l0 part of the vantage dictionary produced by `_calc_P_B0_SD` or
supplied by the caller. -/
structure Vantage where
  b0 : ℝ
  l0 : ℝ

/-- The external collaborators consumed by `rot_hpc`: the time service
(`parse_time`, as an instant in seconds), the observer-geometry calculator,
the Sun-Earth distance and the projection service in both directions. -/
structure RotHpcDeps where
  parse_time : String → ℝ
  calc_P_B0_SD : ℝ → Vantage
  sunearth_distance : ℝ → ℝ
  convert_hpc_hg : List ℝ → List ℝ → ℝ → ℝ → ℝ → List ℝ × List ℝ
  convert_hg_hpc : List ℝ → List ℝ → ℝ → ℝ → ℝ → List ℝ × List ℝ

/-- `rot_hpc` (source lines 100-204): the shape check first, then time
parsing, observer geometry at the start time, projection to heliographic
(with the astropy `Longitude` wrap to [0°, 360°)), the differential
rotation, observer geometry at the end time and the projection back.  Every
collaborator is an explicit parameter so that the error path can be shown
not to depend on any of them. -/
noncomputable def rot_hpc (deps : RotHpcDeps) (x y : Arr)
    (tstart tend frame_time rot_type : String) :
    Except String (List ℝ × List ℝ) :=
  if x.shape ≠ y.shape then
    .error "Input co-ordinates must have the same shape."
  else
    let dstart := deps.parse_time tstart
    let dend := deps.parse_time tend
    let interval := dend - dstart
    let vstart := deps.calc_P_B0_SD dstart
    let lonlat := deps.convert_hpc_hg x.data y.data vstart.b0 vstart.l0
      (deps.sunearth_distance dstart)
    let longitude := lonlat.1.map (fun v => fmod v 360)
    let latitude := lonlat.2
    match diff_rot_arr interval latitude rot_type frame_time with
    | .error e => .error e
    | .ok drot =>
      let vend := deps.calc_P_B0_SD dend
      let newxy := deps.convert_hg_hpc (longitude.zipWith (· + ·) drot)
        latitude vend.b0 vend.l0 (deps.sunearth_distance dend)
      .ok newxy

/-- C6: for every pair of inputs whose shapes differ, `rot_hpc` fails with
the shape-mismatch error - and it returns that error for every possible
behaviour of the time service, the geometry calculator and the projection
service, so the failure happens before and independently of all of them. -/
theorem rot_hpc_shape_mismatch (deps : RotHpcDeps) (x y : Arr)
    (ts te ft rt : String) (h : x.shape ≠ y.shape) :
    rot_hpc deps x y ts te ft rt =
      .error "Input co-ordinates must have the same shape." := by
  unfold rot_hpc
  rw [if_pos h]

/-- A trivial instantiation of the collaborators, for the witness below. -/
noncomputable def trivialDeps : RotHpcDeps :=
  ⟨fun _ => 0, fun _ => ⟨0, 0⟩, fun _ => 1,
    fun a b _ _ _ => (a, b), fun a b _ _ _ => (a, b)⟩

/-- Witness for C6: a 2-element and a 3-element coordinate array. -/
theorem rot_hpc_shape_mismatch_witness :
    rot_hpc trivialDeps ⟨[2], [1, 2]⟩ ⟨[3], [1, 2, 3]⟩
        "2010-09-10 12:34:56" "2010-09-10 13:34:56" "synodic" "howard" =
      .error "Input co-ordinates must have the same shape." :=
  rot_hpc_shape_mismatch trivialDeps ⟨[2], [1, 2]⟩ ⟨[3], [1, 2, 3]⟩
    "2010-09-10 12:34:56" "2010-09-10 13:34:56" "synodic" "howard" (by decide)

/-- A metadata value of a map: either a date or any other payload. -/
inductive MetaVal
  | date : ℝ → MetaVal
  | other : String → MetaVal

/-- The metadata mapping and observation date of a map, the only parts of
the image container that the metadata update of `diffrot_map` reads. -/
structure MapMeta where
  meta : String → Option MetaVal
  date : ℝ

/-- The recognized date keys (source line 557). -/
def date_keys : List String := ["date-obs", "date_obs"]

/-- One iteration of the loop at source lines 559-562: if key `k` is present
in the copied metadata, overwrite it with the new date and set the flag. -/
noncomputable def updateKey (newdate : ℝ)
    (st : (String → Option MetaVal) × Bool) (k : String) :
    (String → Option MetaVal) × Bool :=
  if (st.1 k).isSome then
    (fun k2 => if k2 = k then some (.date newdate) else st.1 k2, true)
  else st

/-- The metadata update of `diffrot_map` (source lines 556-565): copy the
metadata, overwrite every present recognized date key with
`smap.date + dt`, and raise if no recognized key was present. -/
noncomputable def diffrot_map_meta (smap : MapMeta) (dt : ℝ) :
    Except String (String → Option MetaVal) :=
  let r := date_keys.foldl (updateKey (smap.date + dt)) (smap.meta, false)
  if r.2 then .ok r.1
  else .error "Input map does not have date information in the standard map meta keys date-obs, date_obs."

lemma diffrot_map_meta_eq (smap : MapMeta) (dt : ℝ) :
    diffrot_map_meta smap dt =
      if (smap.meta "date-obs").isSome = true ∨ (smap.meta "date_obs").isSome = true then
        .ok (fun k2 =>
          if (k2 = "date-obs" ∨ k2 = "date_obs") ∧ (smap.meta k2).isSome = true
          then some (.date (smap.date + dt)) else smap.meta k2)
      else
        .error "Input map does not have date information in the standard map meta keys date-obs, date_obs." := by
  unfold diffrot_map_meta date_keys
  simp only [List.foldl_cons, List.foldl_nil]
  unfold updateKey
  by_cases h1 : (smap.meta "date-obs").isSome = true <;>
    by_cases h2 : (smap.meta "date_obs").isSome = true <;>
      simp only [h1, h2, String.reduceEq, reduceIte, if_true, if_false,
        Bool.false_eq_true, or_self, or_true, true_or, or_false, false_or] <;>
      try rfl
  all_goals
    refine congrArg Except.ok (funext fun k2 => ?_)
    by_cases hk1 : k2 = "date-obs" <;> by_cases hk2 : k2 = "date_obs" <;>
      simp_all [String.reduceEq]

/-- In isolation, the metadata block of source lines 556-565 raises
(returning no result) exactly when neither recognized date key
("date-obs", "date_obs") is present; when at least one is present, every
present recognized key in the resulting metadata equals `smap.date + dt`,
and every other entry is an unchanged copy of the input's.  This is the
behaviour the enclosing `diffrot_map` evidently intends; the theorem
settling the enclosing function is further below, where the block turns
out to be unreachable. -/
theorem diffrot_map_meta_spec (smap : MapMeta) (dt : ℝ) (k : String) :
    (isOk (diffrot_map_meta smap dt) = true ↔
      ((smap.meta "date-obs").isSome = true ∨ (smap.meta "date_obs").isSome = true)) ∧
    (k ∈ date_keys → (smap.meta k).isSome = true →
      (diffrot_map_meta smap dt).map (fun m => m k) =
        .ok (some (.date (smap.date + dt)))) ∧
    ((k ∉ date_keys ∨ smap.meta k = none) →
      isOk (diffrot_map_meta smap dt) = true →
      (diffrot_map_meta smap dt).map (fun m => m k) = .ok (smap.meta k)) := by
  rw [diffrot_map_meta_eq]
  by_cases hp : (smap.meta "date-obs").isSome = true ∨ (smap.meta "date_obs").isSome = true
  · rw [if_pos hp]
    refine ⟨iff_of_true rfl hp, fun hk hsome => ?_, fun hother _ => ?_⟩
    · have hkor : k = "date-obs" ∨ k = "date_obs" := by
        simpa [date_keys] using hk
      simp only [Except.map]
      rw [if_pos ⟨hkor, hsome⟩]
    · simp only [Except.map]
      refine congrArg Except.ok ?_
      rcases hother with hnk | hnone
      · rw [if_neg]
        intro hcond
        exact hnk (by simpa [date_keys] using hcond.1)
      · rw [if_neg]
        intro hcond
        rw [hnone] at hcond
        simp at hcond
  · rw [if_neg hp]
    refine ⟨iff_of_false (by simp [isOk]) hp, fun hk hsome => absurd ?_ hp,
      fun _ hok => absurd hok (by simp [isOk])⟩
    have hkor : k = "date-obs" ∨ k = "date_obs" := by simpa [date_keys] using hk
    rcases hkor with rfl | rfl
    · exact Or.inl hsome
    · exact Or.inr hsome

/-- A concrete map whose metadata has the "date-obs" key and one unrelated
key, for the witness below. -/
noncomputable def exMeta : MapMeta :=
  ⟨fun k => if k = "date-obs" then some (.other "2011-01-01")
    else if k = "instrume" then some (.other "AIA") else none, 0⟩

/-- The metadata block in isolation, exercised on `exMeta` with dt = 1: the
update succeeds and the "date-obs" entry becomes the new date. -/
theorem diffrot_map_meta_spec_witness :
    (diffrot_map_meta exMeta 1).map (fun m => m "date-obs") =
      .ok (some (.date (exMeta.date + 1))) :=
  (diffrot_map_meta_spec exMeta 1 "date-obs").2.1 (by decide) (by simp [exMeta])

/-- Python truthiness of a numpy boolean array (`bool(arr)`): the element
for a 1-element array, a `ValueError` for larger arrays. -/
def npBool (bs : List Bool) : Except String Bool :=
  match bs with
  | [] => .ok false
  | [b] => .ok b
  | _ => .error "ValueError: The truth value of an array with more than one element is ambiguous."

/-- Python's `not arr` on a numpy array: truthiness, then negation. -/
def pyNot (bs : List Bool) : Except String Bool := (npBool bs).map (!·)

/-- A masked numpy array (`np.ma.array`): data plus mask. -/
structure MaskedArr where
  data : List (Option ℝ)
  mask : List Bool

/-- The masking step of `_warp_sun` (source line 521) on the flattened
pixel-coordinate array `xy2`:
`np.ma.array(xy2, mask=not(np.isfinite(xy2)))`.  A coordinate is `none`
when the rotation produced a non-finite value (off-disk point), so
`np.isfinite` is `Option.isSome`; the single boolean Python's `not`
produces broadcasts over the whole array. -/
def warp_sun_mask (xy2 : List (Option ℝ)) : Except String MaskedArr :=
  (pyNot (xy2.map Option.isSome)).map (fun m => ⟨xy2, xy2.map (fun _ => m)⟩)

/-- The mask claim C9 requires the masking step to produce: exactly the
non-finite entries are masked. -/
def spec_mask (xy2 : List (Option ℝ)) : List Bool :=
  xy2.map (fun v => !v.isSome)

/-- C9: on a 2-by-2-pixel destination grid whose four flattened coordinates
are all finite, the source's masking step raises a `ValueError` (Python
`not` applied to a multi-element array) instead of returning the
element-wise mask [false, false, false, false] that the claim requires. -/
theorem warp_sun_mask_raises :
    warp_sun_mask [some 1, some 2, some 3, some 4] =
      .error "ValueError: The truth value of an array with more than one element is ambiguous." ∧
    spec_mask [some 1, some 2, some 3, some 4] = [false, false, false, false] := by
  constructor <;> rfl

/-- The parts of the image container that `diffrot_map` reads: the pixel
data, the metadata mapping, the observation date and the number of
destination pixels (`dimensions.x * dimensions.y` of the grid that
`_warp_sun` rebuilds at source lines 498-500). -/
structure SMap where
  data : List ℝ
  meta : String → Option MetaVal
  date : ℝ
  npix : Nat

/-- The external collaborators of the warp step, modelled as total
functions.  `pix2coord` is the composition of the image's `pixel_to_data`,
the coordinate rotation and `data_to_pixel` (source lines 501-515),
yielding each destination pixel's source coordinate with `none` for a
non-finite component; modelling it as total charitably assumes the
external time service even tolerates the malformed tuple time built at
source line 503, which only postpones the failure.  `resample` is the
external executor's interpolation step. -/
structure WarpDeps where
  pix2coord : Nat → Option ℝ × Option ℝ
  resample : List ℝ → MaskedArr → List ℝ

/-- `_warp_sun` (source lines 476-521) over a grid of `npix` destination
pixels: the flattened column-stacked coordinate array `xy2` (source line
518) has two entries per destination pixel, and the function ends with the
masking step of source line 521. -/
noncomputable def warp_sun (deps : WarpDeps) (npix : Nat) :
    Except String MaskedArr :=
  let xy2 := (List.range npix).flatMap
    (fun i => [(deps.pix2coord i).1, (deps.pix2coord i).2])
  warp_sun_mask xy2

/-- `diffrot_map` (source lines 524-565): normalize the pixel data, run the
external warp executor with `_warp_sun` as the inverse coordinate map (the
executor invokes it over the destination grid, and an exception inside it
propagates), un-normalize, then execute the metadata block of lines
556-565. -/
noncomputable def diffrot_map (deps : WarpDeps) (smap : SMap) (dt : ℝ) :
    Except String (List ℝ × (String → Option MetaVal)) :=
  match warp_sun deps smap.npix with
  | .error e => .error e
  | .ok warped =>
    let out := un_norm (deps.resample (to_norm smap.data) warped) smap.data
    match diffrot_map_meta ⟨smap.meta, smap.date⟩ dt with
    | .error e => .error e
    | .ok meta2 => .ok (out, meta2)

lemma warp_sun_mask_two_or_more (u v : Option ℝ) (rest : List (Option ℝ)) :
    warp_sun_mask (u :: v :: rest) =
      .error "ValueError: The truth value of an array with more than one element is ambiguous." := rfl

/-- C7: the claim is false of the program as written.  For every map with
at least one destination pixel (`npix = m + 1`), every time delta and
every behaviour of the external collaborators, `diffrot_map` raises the
`ValueError` of `_warp_sun`'s masking step (source line 521; in real
execution the malformed tuple time of line 503 already fails inside the
time service, which is an exception too, only earlier) - whether or not
the metadata carries a recognized date key.  It therefore never raises the
missing-date-metadata error and never returns an image, so both directions
of the claimed iff fail.  In isolation the metadata block of lines 556-565
does implement the claimed behaviour - see the lemmas above - so the claim
matches the evident intent and the defect is in `_warp_sun`. -/
theorem diffrot_map_raises_before_meta (deps : WarpDeps) (data : List ℝ)
    (meta : String → Option MetaVal) (date dt : ℝ) (m : Nat) :
    diffrot_map deps ⟨data, meta, date, m + 1⟩ dt =
      .error "ValueError: The truth value of an array with more than one element is ambiguous." := by
  unfold diffrot_map warp_sun
  dsimp only []
  rw [List.range_succ_eq_map, List.flatMap_cons]
  simp only [List.cons_append, List.nil_append]
  rw [warp_sun_mask_two_or_more]

end DiffRot
